import Mathlib

/-!
Verification development for the cross-pane scroll-synchronization engine of
`react-native-collapsible-tab-view` (`src/Container.tsx`).

The engine's reactive state (`useSharedValue` slots) is embedded as a plain
record `EngState`; each `useAnimatedReaction` / callback of the source becomes
a pure state-transition function.  JavaScript array reads that can yield
`undefined` are embedded as `Option`-returning lookups, and arithmetic on a
possibly-`undefined`/NaN number is embedded as `Option ℚ` arithmetic that
propagates `none`.
-/

namespace CollapsibleTabView

abbrev TabName := String

/-- JavaScript array indexing `xs[i]`: `undefined` (here `none`) when `i` is
negative or past the end. -/
def jsGet {α : Type} (xs : List α) (i : Int) : Option α :=
  if 0 ≤ i then xs.get? i.toNat else none

/-- JavaScript `Array.prototype.findIndex` with an equality predicate:
index of the first occurrence, `-1` when absent. -/
def jsFindIndex (xs : List TabName) (name : TabName) : Int :=
  match xs with
  | [] => -1
  | x :: rest =>
    if x = name then 0
    else
      let r := jsFindIndex rest name
      if r = -1 then -1 else r + 1

/-- Subtraction on JavaScript numbers where `none` stands for
`undefined`/NaN (any operation touching it yields NaN). -/
def jsSub : Option ℚ → Option ℚ → Option ℚ
  | some a, some b => some (a - b)
  | _, _ => none

/-- Addition on JavaScript numbers where `none` stands for
`undefined`/NaN. -/
def jsAdd : Option ℚ → Option ℚ → Option ℚ
  | some a, some b => some (a + b)
  | _, _ => none

/-! ### Header geometry and header-collapse calculator -/

/-- The `headerScrollDistance` derived value (Container.tsx lines 141-143):
`headerHeight !== undefined ? headerHeight - minHeaderHeight : 0`. -/
def headerScrollDistance (headerHeight : Option ℚ) (minHeaderHeight : ℚ) : ℚ :=
  match headerHeight with
  | some h => h - minHeaderHeight
  | none => 0

/-- The `stylez` translateY (Container.tsx lines 310-320):
`diffClampEnabled ? -accDiffClamp : -Math.min(scrollYCurrent, headerScrollDistance)`. -/
def headerTranslation (diffClampEnabled : Bool) (accDiffClamp : ℚ)
    (scrollYCurrent : ℚ) (dist : ℚ) : ℚ :=
  if diffClampEnabled then -accDiffClamp
  else -(min scrollYCurrent dist)

/-- One firing of the `accDiffClamp` reaction body (Container.tsx lines
273-284) at an incoming delta: a falsy (zero) delta is ignored; a positive
delta clamps above at `dist`; a negative delta clamps below at `0`. -/
def accDiffClampStep (dist : ℚ) (acc : ℚ) (delta : ℚ) : ℚ :=
  if delta = 0 then acc
  else
    let nextValue := acc + delta
    if delta > 0 then min dist nextValue
    else if delta < 0 then max 0 nextValue
    else acc

/-- The prepare phase of the `accDiffClamp` reaction (Container.tsx line
271) followed by the body: the delta is
`diffClampEnabled ? accScrollY - oldAccScrollY : 0`. -/
def accDiffClampUpdate (diffClampEnabled : Bool) (dist : ℚ) (acc : ℚ)
    (accScrollY oldAccScrollY : ℚ) : ℚ :=
  accDiffClampStep dist acc
    (if diffClampEnabled then accScrollY - oldAccScrollY else 0)

/-- Running the `accDiffClamp` reaction over a whole sequence of
`(accScrollY, oldAccScrollY)` observations, from the initial value `0`
(Container.tsx line 116). -/
def accDiffClampRun (diffClampEnabled : Bool) (dist : ℚ)
    (updates : List (ℚ × ℚ)) : ℚ :=
  updates.foldl (fun acc u => accDiffClampUpdate diffClampEnabled dist acc u.1 u.2) 0

/-! ### Engine state and the index-transition pipeline -/

/-- The shared reactive slots of `Container.tsx` that the index-transition
engine reads and writes.  `offset` is `Option ℚ` because the source can
write `NaN` into it (an out-of-range `scrollY` read). -/
structure EngState where
  index : Int
  tabNames : List TabName
  scrollY : List ℚ
  offset : Option ℚ
  accDiffClamp : ℚ
  scrollYCurrent : ℚ
  calculateNextOffset : Int
  isScrolling : Bool
  isGliding : Bool
  isSwiping : Bool
  deriving Repr, DecidableEq

/-- Payload of the `onIndexChange` notification (Container.tsx lines
239-244).  The tab names are `Option` because `tabNames.value[i]` is
`undefined` for an out-of-range `i`. -/
structure ChangeNotification where
  prevIndex : Int
  index : Int
  prevTabName : Option TabName
  tabName : Option TabName
  deriving Repr, DecidableEq

/-- Imperative scroll requests issued by `onTabPress` (Container.tsx lines
380-394): scroll the named pane back to the top, or ask the pager to
scroll to an index. -/
inductive ScrollCommand where
  | scrollPaneToTop (name : Option TabName)
  | pagerScrollToIndex (i : Int)
  deriving Repr, DecidableEq

/-- The `focusedTab` derived value (Container.tsx lines 135-137):
`tabNames.value[index.value]`. -/
def focusedTabOf (s : EngState) : Option TabName :=
  jsGet s.tabNames s.index

/-- Result of one firing of the commit reaction. -/
structure CommitOutcome where
  state : EngState
  notified : Option ChangeNotification
  deriving Repr, DecidableEq

/-- The commit reaction (Container.tsx lines 230-250), fired with
`i = calculateNextOffset.value`: when `i` differs from the current index it
adds the offset carry `scrollY[index] - scrollY[i]` to `offset`, emits the
change notification built from the pre-commit values (when an
`onIndexChange` callback is registered), and then sets `index` to `i`. -/
def commitReaction (hasCallback : Bool) (s : EngState) : CommitOutcome :=
  let i := s.calculateNextOffset
  if i ≠ s.index then
    let offset' := jsAdd (jsSub (jsGet s.scrollY s.index) (jsGet s.scrollY i)) s.offset
    let notif : Option ChangeNotification :=
      if hasCallback then
        some { prevIndex := s.index, index := i,
               prevTabName := jsGet s.tabNames s.index,
               tabName := jsGet s.tabNames i }
      else none
    { state := { s with offset := offset', index := i }, notified := notif }
  else
    { state := s, notified := none }

/-- The `onTabPress` callback (Container.tsx lines 372-400).  The argument is
`Option TabName` because `setIndex` can pass `tabNames.value[index]`,
which may be `undefined`.  When neither `isScrolling` nor `isGliding` is
set, it records the pending target in `calculateNextOffset` and requests a
scroll-to-top of the pane when the name is the focused tab, otherwise a
pager scroll to the found index. -/
def onTabPress (s : EngState) (name : Option TabName) : EngState × Option ScrollCommand :=
  if !s.isScrolling && !s.isGliding then
    let i := match name with
      | some n => jsFindIndex s.tabNames n
      | none => -1
    let s' := { s with calculateNextOffset := i }
    if name = focusedTabOf s' then
      (s', some (ScrollCommand.scrollPaneToTop name))
    else
      (s', some (ScrollCommand.pagerScrollToIndex i))
  else
    (s, none)

/-- A tab press followed by the commit reaction it triggers: the reaction
on `calculateNextOffset` (Container.tsx lines 230-250) fires only when the
observed value actually changed. -/
def tabPressStep (hasCallback : Bool) (s : EngState) (name : Option TabName) :
    EngState × Option ScrollCommand × Option ChangeNotification :=
  let r := onTabPress s name
  if r.1.calculateNextOffset ≠ s.calculateNextOffset then
    let out := commitReaction hasCallback r.1
    (out.state, r.2, out.notified)
  else
    (r.1, r.2, none)

/-- Imperative `setIndex` (Container.tsx lines 413-418): rejected with
`false` while `isScrolling || isGliding`; otherwise looks the name up at
the given index and delegates to `onTabPress`, returning `true`. -/
def setIndex (hasCallback : Bool) (s : EngState) (idx : Int) :
    Bool × EngState × Option ScrollCommand × Option ChangeNotification :=
  if s.isScrolling || s.isGliding then (false, s, none, none)
  else (true, tabPressStep hasCallback s (jsGet s.tabNames idx))

/-- Imperative `jumpToTab` (Container.tsx lines 419-423): rejected with
`false` while `isScrolling || isGliding`; otherwise delegates to
`onTabPress` with the given name and returns `true`. -/
def jumpToTab (hasCallback : Bool) (s : EngState) (name : TabName) :
    Bool × EngState × Option ScrollCommand × Option ChangeNotification :=
  if s.isScrolling || s.isGliding then (false, s, none, none)
  else (true, tabPressStep hasCallback s (some name))

/-- Initial value of the `index` shared slot (Container.tsx lines 118-120):
`initialTabName ? tabNames.findIndex(n => n === initialTabName) : 0`
(a JavaScript empty string is falsy, hence the extra case). -/
def initIndex (tabNames : List TabName) (initialTabName : Option TabName) : Int :=
  match initialTabName with
  | some n => if n = "" then 0 else jsFindIndex tabNames n
  | none => 0

/-- Out-of-range recovery effect (Container.tsx lines 402-406): when the
current index is at or past the length of the rendered tab-name array, a
tab press on the last name of that array is issued. -/
def outOfRangeRecovery (hasCallback : Bool) (s : EngState) (tabNamesArray : List TabName) :
    EngState × Option ScrollCommand × Option ChangeNotification :=
  if (tabNamesArray.length : Int) ≤ s.index then
    tabPressStep hasCallback s (jsGet tabNamesArray ((tabNamesArray.length : Int) - 1))
  else
    (s, none, none)

/-- Spec-modelled `accScrollY` linkage.  Modelled from the spec: the
maintenance of `ScrollAccumulator.current` (`accScrollY`) lives in the
scroll-handler hooks, which are outside `Container.tsx`; per §4.2/§4.4 the
driving pane's scroll feeds the accumulator and the carry is added on
commit, i.e. `accScrollY = scrollY[index] + offset`. -/
def accScrollYOf (s : EngState) : Option ℚ :=
  jsAdd (jsGet s.scrollY s.index) s.offset

/-! ### Construction-time child validation -/

/-- A React child as seen by `init`: only whether
`React.isValidElement` holds for it matters. -/
structure Child where
  isValidElement : Bool
  deriving Repr, DecidableEq

/-- The `init` function (Container.tsx lines 27-39): throws when there are no children,
throws when some child is not a valid React element, and returns `true`
otherwise.  A thrown `Error` is embedded as `Except.error` with the
message. -/
def init (children : List Child) : Except String Bool :=
  if children.length = 0 then
    Except.error "CollapsibleTabs must have at least one child."
  else if children.all (fun c => c.isValidElement) then
    Except.ok true
  else
    Except.error "CollapsibleTabs children must be array of React Elements."

/-! ### Helper lemmas for the diff-clamp invariant -/

lemma accDiffClampStep_bounds (dist acc delta : ℚ) (hd : 0 ≤ dist)
    (h0 : 0 ≤ acc) (h1 : acc ≤ dist) :
    0 ≤ accDiffClampStep dist acc delta ∧ accDiffClampStep dist acc delta ≤ dist := by
  unfold accDiffClampStep
  by_cases hz : delta = 0
  · simp [hz, h0, h1]
  · simp only [hz, if_false]
    by_cases hpos : delta > 0
    · simp only [hpos, if_true]
      constructor
      · exact le_min hd (by linarith)
      · exact min_le_left _ _
    · have hneg : delta < 0 := lt_of_le_of_ne (not_lt.mp hpos) hz
      simp only [hpos, if_false, hneg, if_true]
      constructor
      · exact le_max_left _ _
      · exact max_le hd (by linarith)

lemma accDiffClampFold_bounds (enabled : Bool) (dist : ℚ) (hd : 0 ≤ dist) :
    ∀ (updates : List (ℚ × ℚ)) (acc : ℚ), 0 ≤ acc → acc ≤ dist →
      0 ≤ updates.foldl (fun a u => accDiffClampUpdate enabled dist a u.1 u.2) acc ∧
      updates.foldl (fun a u => accDiffClampUpdate enabled dist a u.1 u.2) acc ≤ dist := by
  intro updates
  induction updates with
  | nil => intro acc h0 h1; exact ⟨h0, h1⟩
  | cons u rest ih =>
    intro acc h0 h1
    have hstep := accDiffClampStep_bounds dist acc
      (if enabled then u.1 - u.2 else 0) hd h0 h1
    simpa [List.foldl, accDiffClampUpdate] using ih _ hstep.1 hstep.2

/-! ### C2: diff-clamp accumulator bounds -/

/-- C2: starting from `0`, with a fixed non-negative `scrollDistance`, the
diff-clamp accumulator stays inside `[0, scrollDistance]` under every
sequence of scroll-delta updates (each update adds
`accScrollY - oldAccScrollY` and clamps). -/
theorem accDiffClamp_bounded (enabled : Bool) (dist : ℚ)
    (updates : List (ℚ × ℚ)) (hd : 0 ≤ dist) :
    0 ≤ accDiffClampRun enabled dist updates ∧
    accDiffClampRun enabled dist updates ≤ dist :=
  accDiffClampFold_bounds enabled dist hd updates 0 le_rfl hd

/-- Witness for C2: a concrete run with overshooting deltas stays within
`[0, 100]`. -/
theorem accDiffClamp_bounded_witness :
    0 ≤ accDiffClampRun true 100 [(150, 0), (120, 150), (500, 120)] ∧
    accDiffClampRun true 100 [(150, 0), (120, 150), (500, 120)] ≤ 100 :=
  accDiffClamp_bounded true 100 [(150, 0), (120, 150), (500, 120)] (by norm_num)

/-! ### C5: header scroll distance (no clamping in the source) -/

/-- C5 counterexample: with a measured `headerHeight = 50` and
`minHeaderHeight = 100`, the derived scroll distance is `-50 < 0`; the
source applies no clamping, refuting the claimed invariant
`scrollDistance ≥ 0` for `minHeaderHeight > headerHeight`. -/
theorem headerScrollDistance_negative :
    headerScrollDistance (some 50) 100 = -50 ∧ headerScrollDistance (some 50) 100 < 0 := by
  constructor <;> norm_num [headerScrollDistance]

/-- C5 amended: the derived scroll distance equals
`headerHeight - minHeaderHeight` when the header is measured (with no
clamping), is `0` when the header height is undefined, and is non-negative
whenever `minHeaderHeight ≤ headerHeight`. -/
theorem headerScrollDistance_spec (h mh : ℚ) (hle : mh ≤ h) :
    headerScrollDistance (some h) mh = h - mh ∧
    0 ≤ headerScrollDistance (some h) mh ∧
    headerScrollDistance none mh = 0 := by
  refine ⟨rfl, ?_, rfl⟩
  simp only [headerScrollDistance]
  linarith

/-- Witness for C5 amended: `headerHeight = 300`, `minHeaderHeight = 60`. -/
theorem headerScrollDistance_spec_witness :
    headerScrollDistance (some 300) 60 = 300 - 60 ∧
    0 ≤ headerScrollDistance (some 300) 60 ∧
    headerScrollDistance none 60 = 0 :=
  headerScrollDistance_spec 300 60 (by norm_num)

/-! ### C6: the two header-translation modes -/

/-- C6: the visible header translation is `-accDiffClamp` when diff-clamp
mode is enabled and `-min(scrollYCurrent, scrollDistance)` when it is
disabled; the mode is selected only by the `diffClampEnabled` flag. -/
theorem headerTranslation_modes (acc sy dist : ℚ) :
    headerTranslation true acc sy dist = -acc ∧
    headerTranslation false acc sy dist = -(min sy dist) :=
  ⟨rfl, rfl⟩

/-! ### C7: zero scroll distance is a no-op -/

/-- C7: when `scrollDistance = 0`, the header-collapse calculator yields a
translation of exactly `0` in both modes: in direct mode for every
non-negative current scroll offset, and in diff-clamp mode after every
sequence of delta updates. -/
theorem headerTranslation_noop_of_zero_distance (a sy : ℚ)
    (updates : List (ℚ × ℚ)) (hsy : 0 ≤ sy) :
    headerTranslation false a sy 0 = 0 ∧
    headerTranslation true (accDiffClampRun true 0 updates) sy 0 = 0 := by
  constructor
  · simp [headerTranslation, min_eq_right hsy]
  · have hb := accDiffClampFold_bounds true 0 le_rfl updates 0 le_rfl le_rfl
    have hz : accDiffClampRun true 0 updates = 0 := le_antisymm hb.2 hb.1
    simp [headerTranslation, hz]

/-- Witness for C7: concrete scroll offset `37` and a concrete delta
sequence give translation `0` in both modes. -/
theorem headerTranslation_noop_witness :
    headerTranslation false 5 37 0 = 0 ∧
    headerTranslation true (accDiffClampRun true 0 [(10, 0), (4, 10)]) 37 0 = 0 :=
  headerTranslation_noop_of_zero_distance 5 37 [(10, 0), (4, 10)] (by norm_num)

/-! ### Helper lemmas about JavaScript-style lookups -/

lemma jsGet_nonneg {α : Type} {xs : List α} {i : Int} {a : α}
    (h : jsGet xs i = some a) : 0 ≤ i := by
  by_contra hneg
  simp [jsGet, hneg] at h

lemma jsGet_eq_get? {α : Type} {xs : List α} {i : Int} {a : α}
    (h : jsGet xs i = some a) : xs.get? i.toNat = some a := by
  have hpos : 0 ≤ i := jsGet_nonneg h
  simpa [jsGet, hpos] using h

lemma jsGet_mem {α : Type} {xs : List α} {i : Int} {a : α}
    (h : jsGet xs i = some a) : a ∈ xs :=
  List.get?_mem (jsGet_eq_get? h)

lemma jsGet_of_neg {α : Type} (xs : List α) {i : Int} (h : i < 0) :
    jsGet xs i = none := by
  simp [jsGet, not_le.mpr h]

lemma jsFindIndex_of_not_mem {xs : List TabName} {name : TabName}
    (h : name ∉ xs) : jsFindIndex xs name = -1 := by
  induction xs with
  | nil => rfl
  | cons x rest ih =>
    have hx : ¬(x = name) := fun he => h (he ▸ List.mem_cons_self x rest)
    have hr : name ∉ rest := fun hm => h (List.mem_cons_of_mem x hm)
    simp [jsFindIndex, hx, ih hr]

lemma jsFindIndex_bounds_of_mem {xs : List TabName} {name : TabName}
    (h : name ∈ xs) :
    0 ≤ jsFindIndex xs name ∧ jsFindIndex xs name < (xs.length : Int) := by
  induction xs with
  | nil => cases h
  | cons x rest ih =>
    by_cases hx : x = name
    · simp only [jsFindIndex, if_pos hx, List.length_cons]
      refine ⟨le_refl 0, ?_⟩
      push_cast
      omega
    · have hr : name ∈ rest := by
        rcases List.mem_cons.mp h with he | hm
        · exact absurd he.symm hx
        · exact hm
      obtain ⟨h0, h1⟩ := ih hr
      have hne : jsFindIndex rest name ≠ -1 := by omega
      constructor
      · simp only [jsFindIndex, hx, if_false, hne]
        omega
      · simp only [jsFindIndex, hx, if_false, hne, List.length_cons]
        push_cast
        omega

lemma jsFindIndex_get? {xs : List TabName} (hnd : xs.Nodup) :
    ∀ {k : Nat} {name : TabName}, xs.get? k = some name →
      jsFindIndex xs name = (k : Int) := by
  induction xs with
  | nil => intro k name h; simp at h
  | cons x rest ih =>
    intro k name h
    obtain ⟨hx, hrest⟩ := List.nodup_cons.mp hnd
    match k with
    | 0 =>
      simp only [List.get?] at h
      have : x = name := by injection h
      simp [jsFindIndex, this]
    | k + 1 =>
      simp only [List.get?] at h
      have hmem : name ∈ rest := List.get?_mem h
      have hxname : ¬(x = name) := fun he => hx (he ▸ hmem)
      have hr := ih hrest h
      have hne : jsFindIndex rest name ≠ -1 := by
        rw [hr]; omega
      simp only [jsFindIndex, hxname, if_false, hne, hr]
      push_cast
      ring

/-! ### C1: the offset-carry commit -/

/-- C1: a commit to `i = calculateNextOffset ≠ index` adds the offset carry
`scrollY[index] - scrollY[i]` to the shared offset accumulator, emits
exactly one change notification carrying the pre-commit values, then sets
the index to `i`; with the panes at `120` and `40` the accumulator grows by
exactly `80`, and the diff-clamp header translation (and the spec-modelled
`accScrollY` value) is identical immediately before and after the commit. -/
theorem commit_offset_carry (s : EngState) (o a b d : ℚ)
    (hne : s.calculateNextOffset ≠ s.index)
    (ha : jsGet s.scrollY s.index = some a)
    (hb : jsGet s.scrollY s.calculateNextOffset = some b)
    (ho : s.offset = some o) :
    (commitReaction true s).state.offset = some (a - b + o) ∧
    (commitReaction true s).notified =
      some { prevIndex := s.index, index := s.calculateNextOffset,
             prevTabName := jsGet s.tabNames s.index,
             tabName := jsGet s.tabNames s.calculateNextOffset } ∧
    (commitReaction true s).state.index = s.calculateNextOffset ∧
    (a = 120 → b = 40 → (commitReaction true s).state.offset = some (o + 80)) ∧
    headerTranslation true (commitReaction true s).state.accDiffClamp
        (commitReaction true s).state.scrollYCurrent d =
      headerTranslation true s.accDiffClamp s.scrollYCurrent d ∧
    accScrollYOf (commitReaction true s).state = accScrollYOf s := by
  refine ⟨?_, ?_, ?_, ?_, ?_, ?_⟩
  · simp [commitReaction, hne, ha, hb, ho, jsSub, jsAdd]
  · simp [commitReaction, hne]
  · simp [commitReaction, hne]
  · intro h120 h40
    subst h120; subst h40
    simp [commitReaction, hne, ha, hb, ho, jsSub, jsAdd]
    ring
  · simp [commitReaction, hne, headerTranslation]
  · simp [commitReaction, accScrollYOf, hne, ha, hb, ho, jsSub, jsAdd]
    ring

/-- Concrete state for the C1 witness: pane `A` (active, scrolled to 120)
and pane `B` (scrolled to 40), committing to index 1. -/
def exCommitState : EngState :=
  { index := 0, tabNames := ["A", "B"], scrollY := [120, 40], offset := some 0,
    accDiffClamp := 30, scrollYCurrent := 120, calculateNextOffset := 1,
    isScrolling := false, isGliding := false, isSwiping := false }

/-- Witness for C1: the A→B commit at scrolls 120/40 adds exactly 80 and
keeps the diff-clamp translation unchanged. -/
theorem commit_offset_carry_witness :
    (commitReaction true exCommitState).state.offset = some (120 - 40 + 0) ∧
    (commitReaction true exCommitState).notified =
      some { prevIndex := exCommitState.index, index := exCommitState.calculateNextOffset,
             prevTabName := jsGet exCommitState.tabNames exCommitState.index,
             tabName := jsGet exCommitState.tabNames exCommitState.calculateNextOffset } ∧
    (commitReaction true exCommitState).state.index = exCommitState.calculateNextOffset ∧
    ((120 : ℚ) = 120 → (40 : ℚ) = 40 →
      (commitReaction true exCommitState).state.offset = some (0 + 80)) ∧
    headerTranslation true (commitReaction true exCommitState).state.accDiffClamp
        (commitReaction true exCommitState).state.scrollYCurrent 100 =
      headerTranslation true exCommitState.accDiffClamp exCommitState.scrollYCurrent 100 ∧
    accScrollYOf (commitReaction true exCommitState).state = accScrollYOf exCommitState :=
  commit_offset_carry exCommitState 0 120 40 100 (by decide) (by decide) (by decide) rfl

/-! ### C3: the command gate -/

/-- Concrete state for the C3 counterexample: a horizontal swipe is in
flight (`isSwiping = true`) but no vertical scroll or glide. -/
def exSwipingState : EngState :=
  { index := 0, tabNames := ["A", "B"], scrollY := [120, 40], offset := some 0,
    accDiffClamp := 0, scrollYCurrent := 120, calculateNextOffset := 0,
    isScrolling := false, isGliding := false, isSwiping := true }

/-- C3 counterexample: with `isSwiping = true` (and `isScrolling`,
`isGliding` both clear) `jumpToTab` returns the success signal `true` and
mutates the index to `1` — the gate in the source tests
`isScrolling || isGliding`, not `isSwiping`. -/
theorem jumpToTab_while_swiping_succeeds :
    exSwipingState.isSwiping = true ∧
    (jumpToTab true exSwipingState "B").1 = true ∧
    (jumpToTab true exSwipingState "B").2.1.index = 1 := by
  refine ⟨rfl, rfl, ?_⟩
  simp [jumpToTab, tabPressStep, onTabPress, commitReaction, exSwipingState,
    focusedTabOf, jsGet, jsFindIndex]

/-- C3 amended: while `isScrolling` or `isGliding` is set, both imperative
commands return the failure signal `false` and leave the whole state (and
every emitted effect) unchanged. -/
theorem commands_rejected_while_scrolling_or_gliding (cb : Bool) (s : EngState)
    (idx : Int) (name : TabName)
    (h : s.isScrolling = true ∨ s.isGliding = true) :
    setIndex cb s idx = (false, s, none, none) ∧
    jumpToTab cb s name = (false, s, none, none) := by
  have hg : (s.isScrolling || s.isGliding) = true := by
    rcases h with h | h <;> simp [h]
  constructor <;> simp [setIndex, jumpToTab, hg]

/-- Concrete state for the C3 witness: a vertical scroll is in flight. -/
def exScrollingState : EngState :=
  { index := 0, tabNames := ["A", "B"], scrollY := [120, 40], offset := some 0,
    accDiffClamp := 0, scrollYCurrent := 120, calculateNextOffset := 0,
    isScrolling := true, isGliding := false, isSwiping := false }

/-- Witness for C3 amended: both commands are rejected unchanged while
`isScrolling` is set. -/
theorem commands_rejected_witness :
    setIndex true exScrollingState 1 = (false, exScrollingState, none, none) ∧
    jumpToTab true exScrollingState "B" = (false, exScrollingState, none, none) :=
  commands_rejected_while_scrolling_or_gliding true exScrollingState 1 "B" (Or.inl rfl)

/-! ### C8: pressing the already-active tab -/

/-- C8: calling `setIndex` at the current index with no gesture in flight
returns success, issues a scroll-to-top of the focused pane, leaves the
entire shared state unchanged (no index mutation, no offset carry, no
notification), and is idempotent. -/
theorem setIndex_active_idempotent (cb : Bool) (s : EngState) (name : TabName)
    (hsc : s.isScrolling = false) (hgl : s.isGliding = false)
    (hnd : s.tabNames.Nodup)
    (hname : jsGet s.tabNames s.index = some name)
    (hcno : s.calculateNextOffset = s.index) :
    setIndex cb s s.index =
      (true, s, some (ScrollCommand.scrollPaneToTop (some name)), none) ∧
    setIndex cb ((setIndex cb s s.index).2.1) s.index = setIndex cb s s.index := by
  have hpos : 0 ≤ s.index := jsGet_nonneg hname
  have hget : s.tabNames.get? s.index.toNat = some name := jsGet_eq_get? hname
  have hfind : jsFindIndex s.tabNames name = s.index := by
    rw [jsFindIndex_get? hnd hget, Int.toNat_of_nonneg hpos]
  have hs' : { s with calculateNextOffset := s.index } = s := by
    obtain ⟨i, tn, sy, off, adc, syc, cno, iscr, igl, isw⟩ := s
    have hcno' : cno = i := hcno
    subst hcno'
    rfl
  have hgate : (s.isScrolling || s.isGliding) = false := by rw [hsc, hgl]; rfl
  have hgate2 : (!s.isScrolling && !s.isGliding) = true := by rw [hsc, hgl]; rfl
  have hmain : setIndex cb s s.index =
      (true, s, some (ScrollCommand.scrollPaneToTop (some name)), none) := by
    simp [setIndex, tabPressStep, onTabPress, focusedTabOf, hgate, hgate2,
      hname, hfind, hs']
  exact ⟨hmain, by rw [hmain]; exact hmain⟩

/-- Concrete idle state for the C8 witness. -/
def exIdleActiveState : EngState :=
  { index := 0, tabNames := ["A", "B"], scrollY := [0, 40], offset := some 0,
    accDiffClamp := 0, scrollYCurrent := 0, calculateNextOffset := 0,
    isScrolling := false, isGliding := false, isSwiping := false }

/-- Witness for C8: pressing the active tab `A` at index 0 scrolls it to
the top, changes nothing, and is idempotent. -/
theorem setIndex_active_idempotent_witness :
    setIndex true exIdleActiveState exIdleActiveState.index =
      (true, exIdleActiveState, some (ScrollCommand.scrollPaneToTop (some "A")), none) ∧
    setIndex true ((setIndex true exIdleActiveState exIdleActiveState.index).2.1)
        exIdleActiveState.index =
      setIndex true exIdleActiveState exIdleActiveState.index :=
  setIndex_active_idempotent true exIdleActiveState "A" rfl rfl (by decide)
    (by decide) rfl

/-! ### C9: construction-time validation -/

/-- C9: construction succeeds (returns `true`) exactly for a non-empty
list of valid React elements; an empty list fails with the
at-least-one-child error, and a non-empty list containing an invalid
child fails with the invalid-children error. -/
theorem init_spec (children : List Child) :
    (init children = Except.ok true ↔
      children ≠ [] ∧ children.all (fun c => c.isValidElement) = true) ∧
    (children = [] →
      init children = Except.error "CollapsibleTabs must have at least one child.") ∧
    (children ≠ [] → children.all (fun c => c.isValidElement) = false →
      init children =
        Except.error "CollapsibleTabs children must be array of React Elements.") := by
  by_cases h0 : children = []
  · subst h0
    refine ⟨by simp [init], fun _ => rfl, fun h _ => absurd rfl h⟩
  · have hlen : ¬(children.length = 0) := by
      simpa [List.length_eq_zero] using h0
    refine ⟨?_, fun h => absurd h h0, fun _ hf => ?_⟩
    · by_cases hall : children.all (fun c => c.isValidElement) = true
      · simp [init, hlen, hall, h0]
      · simp [init, hlen, hall, h0]
    · simp [init, hlen, hf]

/-- Witness for C9: a single valid child constructs; no children is the
fatal at-least-one-child error. -/
theorem init_spec_witness :
    init [Child.mk true] = Except.ok true ∧
    init [] = Except.error "CollapsibleTabs must have at least one child." :=
  ⟨(init_spec [Child.mk true]).1.mpr ⟨by decide, by decide⟩,
   (init_spec []).2.1 rfl⟩

/-! ### Helper lemmas for NaN propagation -/

lemma jsSub_none_right (x : Option ℚ) : jsSub x none = none := by
  cases x <;> rfl

lemma jsAdd_none_left (y : Option ℚ) : jsAdd none y = none := by
  cases y <;> rfl

/-! ### C10: unknown tab names pass the public interface -/

/-- C10: with no gesture in flight, `jumpToTab` on a name outside the tab
set returns the success signal `true`; the pending target, and then the
committed index, become `-1`, and the offset carry reads the scroll-offset
array at `-1` (an `undefined` read), leaving `offset` NaN. -/
theorem jumpToTab_unknown_name (cb : Bool) (s : EngState) (name f : TabName)
    (hsc : s.isScrolling = false) (hgl : s.isGliding = false)
    (hmem : name ∉ s.tabNames)
    (hfoc : jsGet s.tabNames s.index = some f)
    (hcno : s.calculateNextOffset = s.index) :
    (jumpToTab cb s name).1 = true ∧
    (jumpToTab cb s name).2.1.calculateNextOffset = -1 ∧
    (jumpToTab cb s name).2.1.index = -1 ∧
    jsGet s.scrollY (-1) = none ∧
    (jumpToTab cb s name).2.1.offset = none := by
  have hpos : 0 ≤ s.index := jsGet_nonneg hfoc
  have hfind : jsFindIndex s.tabNames name = -1 := jsFindIndex_of_not_mem hmem
  have hne : ¬(some name = some f) := by
    intro h
    exact hmem ((Option.some.inj h) ▸ jsGet_mem hfoc)
  have hgate : (s.isScrolling || s.isGliding) = false := by rw [hsc, hgl]; rfl
  have hgate2 : (!s.isScrolling && !s.isGliding) = true := by rw [hsc, hgl]; rfl
  have hneg : (-1 : Int) ≠ s.calculateNextOffset := by rw [hcno]; omega
  have hneg2 : (-1 : Int) ≠ s.index := by omega
  have hgetneg : jsGet s.scrollY (-1 : Int) = none := jsGet_of_neg _ (by norm_num)
  refine ⟨?_, ?_, ?_, hgetneg, ?_⟩ <;>
    simp [jumpToTab, tabPressStep, onTabPress, commitReaction, focusedTabOf,
      hgate, hgate2, hfind, hfoc, hne, hneg, hneg2, hgetneg,
      jsSub_none_right, jsAdd_none_left]

/-- Concrete idle state for the C10 witness. -/
def exUnknownNameState : EngState :=
  { index := 0, tabNames := ["A", "B"], scrollY := [120, 40], offset := some 0,
    accDiffClamp := 0, scrollYCurrent := 120, calculateNextOffset := 0,
    isScrolling := false, isGliding := false, isSwiping := false }

/-- Witness for C10: jumping to the unknown name `Z` succeeds and drives
the index to `-1` with a NaN offset. -/
theorem jumpToTab_unknown_name_witness :
    (jumpToTab true exUnknownNameState "Z").1 = true ∧
    (jumpToTab true exUnknownNameState "Z").2.1.calculateNextOffset = -1 ∧
    (jumpToTab true exUnknownNameState "Z").2.1.index = -1 ∧
    jsGet exUnknownNameState.scrollY (-1) = none ∧
    (jumpToTab true exUnknownNameState "Z").2.1.offset = none :=
  jumpToTab_unknown_name true exUnknownNameState "Z" "A" rfl rfl (by decide)
    (by decide) rfl

/-! ### C4: range of the active index -/

/-- C4 counterexample: constructing with `initialTabName = "B"` over the
single pane set `["A"]` initializes the index to `-1`, outside `[0, N-1]`. -/
theorem initIndex_negative_for_unknown_initial_tab :
    initIndex ["A"] (some "B") = -1 ∧ ¬(0 ≤ initIndex ["A"] (some "B")) := by
  decide

/-- C4 amended: when `initialTabName` is absent or names a member of the
pane set, the initial index lies in `[0, N-1]`; and when the rendered
pane set shrinks to a front portion `arr` of the (stale) shared tab-name
list while the index sits at or past `arr.length`, the out-of-range
recovery effect commits the index to the last valid ordinal
`arr.length - 1`. -/
theorem activeIndex_in_range (names : List TabName) (initN : Option TabName)
    (cb : Bool) (s : EngState) (arr : List TabName)
    (hN : names ≠ [])
    (hinit : initN = none ∨ ∃ n, initN = some n ∧ n ∈ names)
    (harr : arr ≠ [])
    (htake : s.tabNames.take arr.length = arr)
    (hnd : s.tabNames.Nodup)
    (hsc : s.isScrolling = false) (hgl : s.isGliding = false)
    (hix : (arr.length : Int) ≤ s.index)
    (hcno : s.calculateNextOffset = s.index) :
    (0 ≤ initIndex names initN ∧ initIndex names initN < (names.length : Int)) ∧
    ((outOfRangeRecovery cb s arr).1.index = (arr.length : Int) - 1 ∧
      0 ≤ (arr.length : Int) - 1 ∧ (arr.length : Int) - 1 < (arr.length : Int)) := by
  have hlenN : 0 < names.length := List.length_pos.mpr hN
  have hlenA : 0 < arr.length := List.length_pos.mpr harr
  have part1 : 0 ≤ initIndex names initN ∧ initIndex names initN < (names.length : Int) := by
    rcases hinit with h | ⟨n, hn, hmem⟩
    · subst h
      refine ⟨le_refl 0, ?_⟩
      show (0 : Int) < (names.length : Int)
      exact_mod_cast hlenN
    · subst hn
      simp only [initIndex]
      by_cases hempty : n = ""
      · rw [if_pos hempty]
        exact ⟨le_refl 0, by exact_mod_cast hlenN⟩
      · rw [if_neg hempty]
        exact jsFindIndex_bounds_of_mem hmem
  have hlt : arr.length - 1 < arr.length := Nat.sub_lt hlenA Nat.one_pos
  obtain ⟨nlast, hget⟩ : ∃ nl, arr.get? (arr.length - 1) = some nl :=
    ⟨arr.get ⟨arr.length - 1, hlt⟩, List.get?_eq_get hlt⟩
  have hjsget : jsGet arr ((arr.length : Int) - 1) = some nlast := by
    have h0 : (0 : Int) ≤ (arr.length : Int) - 1 := by omega
    have htn : ((arr.length : Int) - 1).toNat = arr.length - 1 := by omega
    simp only [jsGet, if_pos h0, htn, hget]
  have htglast : s.tabNames.get? (arr.length - 1) = some nlast := by
    have h2 : (s.tabNames.take arr.length).get? (arr.length - 1) = some nlast := by
      rw [htake]; exact hget
    rwa [List.get?_take hlt] at h2
  have hfindlast : jsFindIndex s.tabNames nlast = ((arr.length - 1 : Nat) : Int) :=
    jsFindIndex_get? hnd htglast
  have hfind' : jsFindIndex s.tabNames nlast = (arr.length : Int) - 1 := by
    rw [hfindlast]; omega
  have hfocne : ¬(some nlast = jsGet s.tabNames s.index) := by
    intro hcontra
    have hpos : 0 ≤ s.index := jsGet_nonneg hcontra.symm
    have h2 := jsFindIndex_get? hnd (jsGet_eq_get? hcontra.symm)
    have heq : ((arr.length - 1 : Nat) : Int) = (s.index.toNat : Int) :=
      hfindlast.symm.trans h2
    omega
  have hgate2 : (!s.isScrolling && !s.isGliding) = true := by rw [hsc, hgl]; rfl
  have hguard : ((arr.length : Int) - 1) ≠ s.calculateNextOffset := by
    rw [hcno]; omega
  have hcommit : ((arr.length : Int) - 1) ≠ s.index := by omega
  have part2 : (outOfRangeRecovery cb s arr).1.index = (arr.length : Int) - 1 := by
    simp [outOfRangeRecovery, hix, hjsget, tabPressStep, onTabPress,
      commitReaction, focusedTabOf, hgate2, hfind', hfocne, hguard, hcommit]
  exact ⟨part1, part2, by omega, by omega⟩

/-- Concrete shrink state for the C4 witness: the shared tab-name list is
still `["A", "B", "C"]`, the rendered array has shrunk to `["A", "B"]`,
and the index sits at the now-invalid ordinal `2`. -/
def exShrinkState : EngState :=
  { index := 2, tabNames := ["A", "B", "C"], scrollY := [10, 20, 30], offset := some 0,
    accDiffClamp := 0, scrollYCurrent := 30, calculateNextOffset := 2,
    isScrolling := false, isGliding := false, isSwiping := false }

/-- Witness for C4 amended: `initialTabName = "B"` over `["A", "B"]` gives
index `1 ∈ [0, 1]`, and recovery after shrinking to two panes commits the
index to `1`. -/
theorem activeIndex_in_range_witness :
    (0 ≤ initIndex ["A", "B"] (some "B") ∧
      initIndex ["A", "B"] (some "B") < ((["A", "B"] : List TabName).length : Int)) ∧
    ((outOfRangeRecovery true exShrinkState ["A", "B"]).1.index =
        ((["A", "B"] : List TabName).length : Int) - 1 ∧
      0 ≤ ((["A", "B"] : List TabName).length : Int) - 1 ∧
      ((["A", "B"] : List TabName).length : Int) - 1 <
        ((["A", "B"] : List TabName).length : Int)) :=
  activeIndex_in_range ["A", "B"] (some "B") true exShrinkState ["A", "B"]
    (by decide) (Or.inr ⟨"B", rfl, by decide⟩) (by decide) (by decide) (by decide)
    rfl rfl (by decide) rfl

end CollapsibleTabView
